import Mathlib

/-!
Verification of the counting-semaphore package (src/semaphore/semaphore.go).

The Go type `CountingSemaphore` holds a buffered channel `sem` of capacity
`maxPermits` used as the slot pool, a mirrored counter `currentPermits`, the
immutable field `maxPermits`, and a `timeout` duration.  We embed it as a
record whose `semTokens` field is the number of tokens buffered in the
channel and whose `semCap` field is the channel capacity.

Blocking channel operations are modelled for the sequential (no concurrent
interference) executions the claims are about: a receive on `sem` succeeds
exactly when a token is buffered, a send succeeds exactly when the buffer is
not full, and otherwise the `time.After(cs.timeout)` branch fires, i.e. the
call returns a timeout error without mutating state.  Each fallible method
returns the updated state together with `none` for a nil error or `some e`
for the distinct error value built by the corresponding `fmt.Errorf` call.
-/

/-- The five distinct error values produced by `fmt.Errorf` in semaphore.go:
the two timeout errors of `Acquire`/`Release`, the two invalid-request
errors of `AcquireN`/`ReleaseN`, and the insufficient-permits error of
`AcquireN`. -/
inductive SemErr where
  | acquireTimeout
  | releaseTimeout
  | invalidRequestAcquire
  | insufficientPermits
  | invalidRequestRelease
  deriving DecidableEq, Repr

/-- The Go struct `CountingSemaphore`: `semTokens` is the number of
`struct{}{}` tokens currently buffered in the channel `cs.sem`, `semCap` the
channel's buffer capacity (fixed by `make(chan struct{}, maxPermits)`), and
the remaining fields mirror the Go fields of the same names.  The mutex only
serialises access and has no sequential content, so it is not represented. -/
structure CountingSemaphore where
  semTokens : Nat
  semCap : Nat
  maxPermits : Int
  currentPermits : Int
  timeout : Int
  deriving DecidableEq, Repr

namespace CountingSemaphore

/-- `Acquire`: receive from `cs.sem` (succeeds sequentially iff a token is
buffered) then decrement `currentPermits`; on the timeout branch return the
acquire-timeout error with no state change. -/
def Acquire (cs : CountingSemaphore) : CountingSemaphore × Option SemErr :=
  if 0 < cs.semTokens then
    ({ cs with semTokens := cs.semTokens - 1,
               currentPermits := cs.currentPermits - 1 }, none)
  else
    (cs, some SemErr.acquireTimeout)

/-- `TryAcquire`: non-blocking receive via `select`/`default`; takes a token
and decrements the counter when one is buffered, otherwise returns false
with no state change. -/
def TryAcquire (cs : CountingSemaphore) : Bool × CountingSemaphore :=
  if 0 < cs.semTokens then
    (true, { cs with semTokens := cs.semTokens - 1,
                     currentPermits := cs.currentPermits - 1 })
  else
    (false, cs)

/-- `Release`: send on `cs.sem` (succeeds sequentially iff the buffer is not
full) then increment `currentPermits`; on the timeout branch return the
release-timeout error with no state change. -/
def Release (cs : CountingSemaphore) : CountingSemaphore × Option SemErr :=
  if cs.semTokens < cs.semCap then
    ({ cs with semTokens := cs.semTokens + 1,
               currentPermits := cs.currentPermits + 1 }, none)
  else
    (cs, some SemErr.releaseTimeout)

/-- `AvailablePermits`: read `currentPermits` under the read lock. -/
def AvailablePermits (cs : CountingSemaphore) : Int :=
  cs.currentPermits

/-- The loop body of `ReleaseN`: `n` sequential `Release` calls, returning
the first error immediately (no rollback). -/
def releaseNLoop : CountingSemaphore → Nat → CountingSemaphore × Option SemErr
  | cs, 0 => (cs, none)
  | cs, k + 1 =>
    match cs.Release with
    | (cs1, none) => releaseNLoop cs1 k
    | (cs1, some e) => (cs1, some e)

/-- `ReleaseN(n)`: snapshot `availableToRelease := maxPermits -
currentPermits`; fail with its invalid-request error when `n` exceeds the
snapshot, otherwise run the release loop.  The Go loop `for i := 0; i < n`
executes `n.toNat` iterations (zero when `n ≤ 0`). -/
def ReleaseN (cs : CountingSemaphore) (n : Int) : CountingSemaphore × Option SemErr :=
  let availableToRelease := cs.maxPermits - cs.currentPermits
  if availableToRelease < n then
    (cs, some SemErr.invalidRequestRelease)
  else
    releaseNLoop cs n.toNat

/-- The loop body of `AcquireN`: sequential `Acquire` calls tracking the
count `acquired` already obtained; on a failing call it rolls back with
`ReleaseN acquired` (whose own error is discarded, exactly as in Go) and
propagates the acquire error. -/
def acquireNLoop : CountingSemaphore → Nat → Nat → CountingSemaphore × Option SemErr
  | cs, 0, _ => (cs, none)
  | cs, r + 1, acquired =>
    match cs.Acquire with
    | (cs1, none) => acquireNLoop cs1 r (acquired + 1)
    | (cs1, some e) =>
      ((cs1.ReleaseN (Int.ofNat acquired)).1, some e)

/-- `AcquireN(n)`: fail with the invalid-request error when
`n > maxPermits`, then with the insufficient-permits error when
`AvailablePermits() < n`, otherwise run the acquire loop for `n.toNat`
iterations starting with zero permits acquired. -/
def AcquireN (cs : CountingSemaphore) (n : Int) : CountingSemaphore × Option SemErr :=
  if cs.maxPermits < n then
    (cs, some SemErr.invalidRequestAcquire)
  else if cs.AvailablePermits < n then
    (cs, some SemErr.insufficientPermits)
  else
    acquireNLoop cs n.toNat 0

end CountingSemaphore

/-- `NewCountingSemaphore(maxPermits, timeout)`: allocate the channel with
capacity `maxPermits`, fill it with `maxPermits` tokens, and store
`currentPermits = maxPermits` and the timeout.  A negative capacity would
make `make(chan struct{}, maxPermits)` panic, so the constructor takes a
natural number. -/
def NewCountingSemaphore (maxPermits : Nat) (timeout : Int) : CountingSemaphore :=
  { semTokens := maxPermits
  , semCap := maxPermits
  , maxPermits := Int.ofNat maxPermits
  , currentPermits := Int.ofNat maxPermits
  , timeout := timeout }

/-- One operation of the semaphore API, for stating properties of arbitrary
call sequences. -/
inductive SemOp where
  | acquire
  | tryAcquire
  | release
  | acquireN (n : Int)
  | releaseN (n : Int)
  deriving DecidableEq, Repr

/-- Apply one API call to a state, keeping the post-state whether or not the
call reported an error (exactly what a Go caller's semaphore looks like
after the call returns). -/
def applyOp (cs : CountingSemaphore) (op : SemOp) : CountingSemaphore :=
  match op with
  | SemOp.acquire => cs.Acquire.1
  | SemOp.tryAcquire => cs.TryAcquire.2
  | SemOp.release => cs.Release.1
  | SemOp.acquireN n => (cs.AcquireN n).1
  | SemOp.releaseN n => (cs.ReleaseN n).1

/-- Run a sequence of API calls from a starting state. -/
def runOps (cs : CountingSemaphore) (ops : List SemOp) : CountingSemaphore :=
  ops.foldl applyOp cs

/-- A state is reachable when some sequence of sequential API calls produces
it from a freshly constructed semaphore. -/
def Reachable (cs : CountingSemaphore) : Prop :=
  ∃ (C : Nat) (t : Int) (ops : List SemOp),
    cs = runOps (NewCountingSemaphore C t) ops

/-- The state invariant of a capacity-`C` semaphore: the channel capacity
and `maxPermits` both equal `C`, the counter mirrors the pool occupancy, and
the pool never holds more than `C` tokens. -/
def GoodState (C : Nat) (cs : CountingSemaphore) : Prop :=
  cs.maxPermits = (C : Int) ∧
  cs.semCap = C ∧
  cs.currentPermits = (cs.semTokens : Int) ∧
  cs.semTokens ≤ C

/-! Characterisations of the two loops: what `n` sequential `Release`
(resp. `Acquire`) calls do, in the success case and when the pool runs out
of room (resp. tokens) midway. -/

lemma releaseNLoop_succ_pos (cs : CountingSemaphore) (k : Nat)
    (h : cs.semTokens < cs.semCap) :
    CountingSemaphore.releaseNLoop cs (k + 1) =
      CountingSemaphore.releaseNLoop
        { cs with semTokens := cs.semTokens + 1,
                  currentPermits := cs.currentPermits + 1 } k := by
  rw [CountingSemaphore.releaseNLoop, CountingSemaphore.Release, if_pos h]

lemma releaseNLoop_succ_neg (cs : CountingSemaphore) (k : Nat)
    (h : ¬ cs.semTokens < cs.semCap) :
    CountingSemaphore.releaseNLoop cs (k + 1) =
      (cs, some SemErr.releaseTimeout) := by
  rw [CountingSemaphore.releaseNLoop, CountingSemaphore.Release, if_neg h]

lemma acquireNLoop_succ_pos (cs : CountingSemaphore) (r a : Nat)
    (h : 0 < cs.semTokens) :
    CountingSemaphore.acquireNLoop cs (r + 1) a =
      CountingSemaphore.acquireNLoop
        { cs with semTokens := cs.semTokens - 1,
                  currentPermits := cs.currentPermits - 1 } r (a + 1) := by
  rw [CountingSemaphore.acquireNLoop, CountingSemaphore.Acquire, if_pos h]

lemma acquireNLoop_succ_neg (cs : CountingSemaphore) (r a : Nat)
    (h : ¬ 0 < cs.semTokens) :
    CountingSemaphore.acquireNLoop cs (r + 1) a =
      ((cs.ReleaseN (Int.ofNat a)).1, some SemErr.acquireTimeout) := by
  rw [CountingSemaphore.acquireNLoop, CountingSemaphore.Acquire, if_neg h]

lemma releaseNLoop_ok (k : Nat) :
    ∀ cs : CountingSemaphore, cs.semTokens + k ≤ cs.semCap →
      CountingSemaphore.releaseNLoop cs k =
        ({ cs with semTokens := cs.semTokens + k,
                   currentPermits := cs.currentPermits + (k : Int) }, none) := by
  induction k with
  | zero =>
    intro cs _
    simp [CountingSemaphore.releaseNLoop]
  | succ k ih =>
    intro cs h
    have hlt : cs.semTokens < cs.semCap := by omega
    rw [releaseNLoop_succ_pos cs k hlt, ih _ (by simp; omega)]
    simp only [Prod.mk.injEq, CountingSemaphore.mk.injEq, eq_self_iff_true,
      and_true, true_and]
    omega

lemma releaseNLoop_fail (k : Nat) :
    ∀ cs : CountingSemaphore, cs.semTokens ≤ cs.semCap →
      cs.semCap < cs.semTokens + k →
      CountingSemaphore.releaseNLoop cs k =
        ({ cs with semTokens := cs.semCap,
                   currentPermits :=
                     cs.currentPermits + ((cs.semCap - cs.semTokens : Nat) : Int) },
         some SemErr.releaseTimeout) := by
  induction k with
  | zero =>
    intro cs h1 h2
    omega
  | succ k ih =>
    intro cs h1 h2
    by_cases hlt : cs.semTokens < cs.semCap
    · rw [releaseNLoop_succ_pos cs k hlt, ih _ (by simp; omega) (by simp; omega)]
      obtain ⟨st, sc, mp, cp, tm⟩ := cs
      simp only [Prod.mk.injEq, CountingSemaphore.mk.injEq, eq_self_iff_true,
        and_true, true_and] at h1 h2 hlt ⊢
      omega
    · rw [releaseNLoop_succ_neg cs k hlt]
      obtain ⟨st, sc, mp, cp, tm⟩ := cs
      simp only [Prod.mk.injEq, CountingSemaphore.mk.injEq, eq_self_iff_true,
        and_true, true_and] at h1 h2 hlt ⊢
      omega

lemma acquireNLoop_ok (r : Nat) :
    ∀ (a : Nat) (cs : CountingSemaphore), r ≤ cs.semTokens →
      CountingSemaphore.acquireNLoop cs r a =
        ({ cs with semTokens := cs.semTokens - r,
                   currentPermits := cs.currentPermits - (r : Int) }, none) := by
  induction r with
  | zero =>
    intro a cs _
    simp [CountingSemaphore.acquireNLoop]
  | succ r ih =>
    intro a cs h
    have hlt : 0 < cs.semTokens := by omega
    rw [acquireNLoop_succ_pos cs r a hlt, ih _ _ (by simp; omega)]
    simp only [Prod.mk.injEq, CountingSemaphore.mk.injEq, eq_self_iff_true,
      and_true, true_and]
    omega

lemma acquireNLoop_fail (r : Nat) :
    ∀ (a : Nat) (cs : CountingSemaphore), cs.semTokens < r →
      CountingSemaphore.acquireNLoop cs r a =
        ((CountingSemaphore.ReleaseN
            { cs with semTokens := 0,
                      currentPermits := cs.currentPermits - (cs.semTokens : Int) }
            (Int.ofNat (a + cs.semTokens))).1,
         some SemErr.acquireTimeout) := by
  induction r with
  | zero =>
    intro a cs h
    omega
  | succ r ih =>
    intro a cs h
    by_cases hlt : 0 < cs.semTokens
    · rw [acquireNLoop_succ_pos cs r a hlt, ih _ _ (by simp; omega)]
      obtain ⟨st, sc, mp, cp, tm⟩ := cs
      simp only [] at h hlt
      congr 3
      · simp only [CountingSemaphore.mk.injEq, eq_self_iff_true, and_true,
          true_and]
        omega
      · simp only [Int.ofNat_eq_natCast]
        omega
    · rw [acquireNLoop_succ_neg cs r a hlt]
      obtain ⟨st, sc, mp, cp, tm⟩ := cs
      simp only [] at h hlt
      congr 3
      · simp only [CountingSemaphore.mk.injEq, eq_self_iff_true, and_true,
          true_and]
        omega
      · simp only [Int.ofNat_eq_natCast]
        omega

/-! Characterisations of `ReleaseN` and `AcquireN` by case. -/

lemma ReleaseN_invalid (cs : CountingSemaphore) (n : Int)
    (h : cs.maxPermits - cs.currentPermits < n) :
    cs.ReleaseN n = (cs, some SemErr.invalidRequestRelease) := by
  simp only [CountingSemaphore.ReleaseN]
  rw [if_pos h]

lemma ReleaseN_ok (cs : CountingSemaphore) (n : Int)
    (h1 : n ≤ cs.maxPermits - cs.currentPermits)
    (h2 : cs.semTokens + n.toNat ≤ cs.semCap) :
    cs.ReleaseN n =
      ({ cs with semTokens := cs.semTokens + n.toNat,
                 currentPermits := cs.currentPermits + (n.toNat : Int) }, none) := by
  simp only [CountingSemaphore.ReleaseN]
  rw [if_neg (by omega), releaseNLoop_ok _ _ h2]

lemma ReleaseN_fail (cs : CountingSemaphore) (n : Int)
    (h1 : n ≤ cs.maxPermits - cs.currentPermits)
    (h2 : cs.semTokens ≤ cs.semCap)
    (h3 : cs.semCap < cs.semTokens + n.toNat) :
    cs.ReleaseN n =
      ({ cs with semTokens := cs.semCap,
                 currentPermits :=
                   cs.currentPermits + ((cs.semCap - cs.semTokens : Nat) : Int) },
       some SemErr.releaseTimeout) := by
  simp only [CountingSemaphore.ReleaseN]
  rw [if_neg (by omega), releaseNLoop_fail _ _ h2 h3]

lemma AcquireN_invalid (cs : CountingSemaphore) (n : Int)
    (h : cs.maxPermits < n) :
    cs.AcquireN n = (cs, some SemErr.invalidRequestAcquire) := by
  rw [CountingSemaphore.AcquireN, if_pos h]

lemma AcquireN_insufficient (cs : CountingSemaphore) (n : Int)
    (h1 : ¬ cs.maxPermits < n) (h2 : cs.AvailablePermits < n) :
    cs.AcquireN n = (cs, some SemErr.insufficientPermits) := by
  rw [CountingSemaphore.AcquireN, if_neg h1, if_pos h2]

lemma AcquireN_ok (cs : CountingSemaphore) (n : Int)
    (h1 : ¬ cs.maxPermits < n) (h2 : ¬ cs.AvailablePermits < n)
    (h3 : n.toNat ≤ cs.semTokens) :
    cs.AcquireN n =
      ({ cs with semTokens := cs.semTokens - n.toNat,
                 currentPermits := cs.currentPermits - (n.toNat : Int) }, none) := by
  rw [CountingSemaphore.AcquireN, if_neg h1, if_neg h2, acquireNLoop_ok _ _ _ h3]

lemma AcquireN_rollback (cs : CountingSemaphore) (n : Int)
    (h1 : ¬ cs.maxPermits < n) (h2 : ¬ cs.AvailablePermits < n)
    (h3 : cs.semTokens < n.toNat)
    (h4 : cs.currentPermits ≤ cs.maxPermits)
    (h5 : cs.semTokens ≤ cs.semCap) :
    cs.AcquireN n = (cs, some SemErr.acquireTimeout) := by
  rw [CountingSemaphore.AcquireN, if_neg h1, if_neg h2, acquireNLoop_fail _ _ _ h3]
  rw [ReleaseN_ok _ _ (by simp only [Int.ofNat_eq_natCast]; omega)
        (by simp only [Int.ofNat_eq_natCast]; omega)]
  obtain ⟨st, sc, mp, cp, tm⟩ := cs
  simp only [Prod.mk.injEq, CountingSemaphore.mk.injEq, Int.ofNat_eq_natCast,
    eq_self_iff_true, and_true, true_and]
  omega

/-! Preservation of the state invariant by every operation. -/

lemma goodState_applyOp (C : Nat) (cs : CountingSemaphore) (op : SemOp)
    (h : GoodState C cs) : GoodState C (applyOp cs op) := by
  obtain ⟨h1, h2, h3, h4⟩ := h
  cases op with
  | acquire =>
    show GoodState C cs.Acquire.1
    rw [CountingSemaphore.Acquire]
    by_cases hp : 0 < cs.semTokens
    · rw [if_pos hp]
      simp only [GoodState]
      omega
    · rw [if_neg hp]
      exact ⟨h1, h2, h3, h4⟩
  | tryAcquire =>
    show GoodState C cs.TryAcquire.2
    rw [CountingSemaphore.TryAcquire]
    by_cases hp : 0 < cs.semTokens
    · rw [if_pos hp]
      simp only [GoodState]
      omega
    · rw [if_neg hp]
      exact ⟨h1, h2, h3, h4⟩
  | release =>
    show GoodState C cs.Release.1
    rw [CountingSemaphore.Release]
    by_cases hp : cs.semTokens < cs.semCap
    · rw [if_pos hp]
      simp only [GoodState]
      omega
    · rw [if_neg hp]
      exact ⟨h1, h2, h3, h4⟩
  | acquireN n =>
    show GoodState C (cs.AcquireN n).1
    by_cases c1 : cs.maxPermits < n
    · rw [AcquireN_invalid _ _ c1]
      exact ⟨h1, h2, h3, h4⟩
    · by_cases c2 : cs.AvailablePermits < n
      · rw [AcquireN_insufficient _ _ c1 c2]
        exact ⟨h1, h2, h3, h4⟩
      · have hn : n.toNat ≤ cs.semTokens := by
          simp only [CountingSemaphore.AvailablePermits] at c2
          omega
        rw [AcquireN_ok _ _ c1 c2 hn]
        simp only [GoodState]
        omega
  | releaseN n =>
    show GoodState C (cs.ReleaseN n).1
    by_cases c1 : cs.maxPermits - cs.currentPermits < n
    · rw [ReleaseN_invalid _ _ c1]
      exact ⟨h1, h2, h3, h4⟩
    · rw [ReleaseN_ok _ _ (by omega) (by omega)]
      simp only [GoodState]
      omega

lemma goodState_runOps (C : Nat) (ops : List SemOp) :
    ∀ cs : CountingSemaphore, GoodState C cs → GoodState C (runOps cs ops) := by
  induction ops with
  | nil => intro cs h; exact h
  | cons op ops ih => intro cs h; exact ih _ (goodState_applyOp C cs op h)

lemma goodState_new (C : Nat) (t : Int) :
    GoodState C (NewCountingSemaphore C t) :=
  ⟨rfl, rfl, rfl, Nat.le_refl C⟩

lemma reachable_goodState (cs : CountingSemaphore) (h : Reachable cs) :
    ∃ C : Nat, GoodState C cs := by
  obtain ⟨C, t, ops, rfl⟩ := h
  exact ⟨C, goodState_runOps C ops _ (goodState_new C t)⟩

/-! The claims. -/

/-- C1: for every capacity `C`, timeout `t`, and sequence of Acquire,
TryAcquire, Release, AcquireN, ReleaseN calls, the state invariant holds
after every operation: `currentPermits` equals the number of slot tokens
resident in the pool, and `AvailablePermits` returns a value in `[0, C]`. -/
theorem semaphore_invariant_all_sequences (C : Nat) (t : Int) (ops : List SemOp) :
    (runOps (NewCountingSemaphore C t) ops).currentPermits
        = ((runOps (NewCountingSemaphore C t) ops).semTokens : Int) ∧
    0 ≤ (runOps (NewCountingSemaphore C t) ops).AvailablePermits ∧
    (runOps (NewCountingSemaphore C t) ops).AvailablePermits ≤ (C : Int) := by
  obtain ⟨h1, h2, h3, h4⟩ := goodState_runOps C ops _ (goodState_new C t)
  refine ⟨h3, ?_, ?_⟩ <;> simp only [CountingSemaphore.AvailablePermits] <;> omega

/-- C2: for every positive capacity `C` and timeout `t`, the semaphore built
by `NewCountingSemaphore` starts with a fully populated slot pool (`C`
tokens), `currentPermits = C`, and `AvailablePermits() = C`. -/
theorem new_semaphore_fully_loaded (C : Nat) (t : Int) (h : 0 < C) :
    (NewCountingSemaphore C t).semTokens = C ∧
    (NewCountingSemaphore C t).currentPermits = (C : Int) ∧
    (NewCountingSemaphore C t).AvailablePermits = (C : Int) :=
  ⟨rfl, rfl, rfl⟩

theorem new_semaphore_fully_loaded_witness :
    (NewCountingSemaphore 2 5).semTokens = 2 ∧
    (NewCountingSemaphore 2 5).currentPermits = (2 : Int) ∧
    (NewCountingSemaphore 2 5).AvailablePermits = (2 : Int) :=
  new_semaphore_fully_loaded 2 5 (by decide)

/-- C3: on every reachable state, a successful `AcquireN n` (with `0 ≤ n`)
followed immediately by `ReleaseN n` succeeds and restores
`AvailablePermits()` to its pre-call value. -/
theorem acquireN_releaseN_roundtrip (s : CountingSemaphore) (n : Int)
    (hre : Reachable s) (hn : 0 ≤ n)
    (hok : (s.AcquireN n).2 = none) :
    ((s.AcquireN n).1.ReleaseN n).2 = none ∧
    ((s.AcquireN n).1.ReleaseN n).1.AvailablePermits = s.AvailablePermits := by
  obtain ⟨C, h1, h2, h3, h4⟩ := reachable_goodState s hre
  by_cases c1 : s.maxPermits < n
  · rw [AcquireN_invalid _ _ c1] at hok
    simp at hok
  · by_cases c2 : s.AvailablePermits < n
    · rw [AcquireN_insufficient _ _ c1 c2] at hok
      simp at hok
    · have hn' : n.toNat ≤ s.semTokens := by
        simp only [CountingSemaphore.AvailablePermits] at c2
        omega
      rw [AcquireN_ok _ _ c1 c2 hn']
      rw [ReleaseN_ok _ _ (by simp only []; omega) (by simp only []; omega)]
      refine ⟨rfl, ?_⟩
      simp only [CountingSemaphore.AvailablePermits]
      omega

theorem acquireN_releaseN_roundtrip_witness :
    (((NewCountingSemaphore 2 5).AcquireN 1).1.ReleaseN 1).2 = none ∧
    (((NewCountingSemaphore 2 5).AcquireN 1).1.ReleaseN 1).1.AvailablePermits
      = (NewCountingSemaphore 2 5).AvailablePermits :=
  acquireN_releaseN_roundtrip (NewCountingSemaphore 2 5) 1
    ⟨2, 5, [], rfl⟩ (by decide) (by decide)

/-- C4: `Acquire` on a semaphore whose slot pool is empty takes the timeout
branch (after waiting out the configured timeout, the only way the wait can
end absent concurrent interference), returns the acquire-timeout error, and
mutates no state, so `AvailablePermits()` is unchanged. -/
theorem acquire_timeout_on_empty (s : CountingSemaphore)
    (h : s.semTokens = 0) :
    s.Acquire = (s, some SemErr.acquireTimeout) ∧
    s.Acquire.1.AvailablePermits = s.AvailablePermits := by
  rw [CountingSemaphore.Acquire, if_neg (by omega)]
  exact ⟨rfl, rfl⟩

theorem acquire_timeout_on_empty_witness :
    ((NewCountingSemaphore 1 5).Acquire).1.Acquire
        = (((NewCountingSemaphore 1 5).Acquire).1, some SemErr.acquireTimeout) ∧
    ((NewCountingSemaphore 1 5).Acquire).1.Acquire.1.AvailablePermits
        = ((NewCountingSemaphore 1 5).Acquire).1.AvailablePermits :=
  acquire_timeout_on_empty ((NewCountingSemaphore 1 5).Acquire).1 (by decide)

/-- C5: `TryAcquire` never blocks: with a token available it removes one
token, decrements `currentPermits`, and returns true; with none it returns
false and changes nothing; and on a fresh capacity-2 semaphore three
sequential calls return true, true, false. -/
theorem tryAcquire_semantics :
    (∀ s : CountingSemaphore, 0 < s.semTokens →
        s.TryAcquire =
          (true, { s with semTokens := s.semTokens - 1,
                          currentPermits := s.currentPermits - 1 })) ∧
    (∀ s : CountingSemaphore, s.semTokens = 0 → s.TryAcquire = (false, s)) ∧
    ((NewCountingSemaphore 2 5).TryAcquire.1,
      (NewCountingSemaphore 2 5).TryAcquire.2.TryAcquire.1,
      (NewCountingSemaphore 2 5).TryAcquire.2.TryAcquire.2.TryAcquire.1)
      = (true, true, false) := by
  refine ⟨?_, ?_, by decide⟩
  · intro s hs
    rw [CountingSemaphore.TryAcquire, if_pos hs]
  · intro s hs
    rw [CountingSemaphore.TryAcquire, if_neg (by omega)]

theorem tryAcquire_semantics_witness :
    (NewCountingSemaphore 2 5).TryAcquire =
      (true, { NewCountingSemaphore 2 5 with
                 semTokens := (NewCountingSemaphore 2 5).semTokens - 1,
                 currentPermits := (NewCountingSemaphore 2 5).currentPermits - 1 }) :=
  tryAcquire_semantics.1 (NewCountingSemaphore 2 5) (by decide)

/-- C6: `AcquireN n` with `n > maxPermits` fails immediately (before any
single acquire) with the invalid-request error and changes no state, so
`AvailablePermits()` and the pool are unchanged. -/
theorem acquireN_invalid_request (s : CountingSemaphore) (n : Int)
    (h : s.maxPermits < n) :
    s.AcquireN n = (s, some SemErr.invalidRequestAcquire) ∧
    (s.AcquireN n).1.AvailablePermits = s.AvailablePermits := by
  rw [AcquireN_invalid _ _ h]
  exact ⟨rfl, rfl⟩

theorem acquireN_invalid_request_witness :
    (NewCountingSemaphore 2 5).AcquireN 3
        = (NewCountingSemaphore 2 5, some SemErr.invalidRequestAcquire) ∧
    ((NewCountingSemaphore 2 5).AcquireN 3).1.AvailablePermits
        = (NewCountingSemaphore 2 5).AvailablePermits :=
  acquireN_invalid_request (NewCountingSemaphore 2 5) 3 (by decide)

/-- C7: `AcquireN n` with `n ≤ maxPermits` whose pre-check observes fewer
than `n` available permits fails immediately with the insufficient-permits
error, acquiring nothing and leaving the state unchanged. -/
theorem acquireN_insufficient_permits (s : CountingSemaphore) (n : Int)
    (h1 : n ≤ s.maxPermits) (h2 : s.AvailablePermits < n) :
    s.AcquireN n = (s, some SemErr.insufficientPermits) ∧
    (s.AcquireN n).1.AvailablePermits = s.AvailablePermits := by
  rw [AcquireN_insufficient _ _ (by omega) h2]
  exact ⟨rfl, rfl⟩

theorem acquireN_insufficient_permits_witness :
    ((NewCountingSemaphore 2 5).Acquire).1.AcquireN 2
        = (((NewCountingSemaphore 2 5).Acquire).1, some SemErr.insufficientPermits) ∧
    (((NewCountingSemaphore 2 5).Acquire).1.AcquireN 2).1.AvailablePermits
        = ((NewCountingSemaphore 2 5).Acquire).1.AvailablePermits :=
  acquireN_insufficient_permits ((NewCountingSemaphore 2 5).Acquire).1 2
    (by decide) (by decide)

/-- C8: when both pre-checks of `AcquireN n` pass but a constituent
`Acquire` times out (possible only when the counter exceeds the pool
occupancy, i.e. after concurrent interference left `semTokens < n` while
`currentPermits ≥ n`), the already-acquired permits are rolled back via
`ReleaseN` and the timeout error is propagated, leaving `AvailablePermits()`
and the whole state at their pre-call values. -/
theorem acquireN_rollback_on_timeout (s : CountingSemaphore) (n : Int)
    (h1 : n ≤ s.maxPermits) (h2 : n ≤ s.AvailablePermits)
    (h3 : s.semTokens < n.toNat)
    (h4 : s.currentPermits ≤ s.maxPermits) (h5 : s.semTokens ≤ s.semCap) :
    s.AcquireN n = (s, some SemErr.acquireTimeout) ∧
    (s.AcquireN n).1.AvailablePermits = s.AvailablePermits := by
  rw [AcquireN_rollback _ _ (by omega) (by omega) h3 h4 h5]
  exact ⟨rfl, rfl⟩

theorem acquireN_rollback_on_timeout_witness :
    CountingSemaphore.AcquireN ⟨1, 3, 3, 2, 5⟩ 2
        = (⟨1, 3, 3, 2, 5⟩, some SemErr.acquireTimeout) ∧
    (CountingSemaphore.AcquireN ⟨1, 3, 3, 2, 5⟩ 2).1.AvailablePermits
        = CountingSemaphore.AvailablePermits ⟨1, 3, 3, 2, 5⟩ :=
  acquireN_rollback_on_timeout ⟨1, 3, 3, 2, 5⟩ 2 (by decide) (by decide)
    (by decide) (by decide) (by decide)

/-- C9: `ReleaseN n` fails with the invalid-request error and no state
change when `n` exceeds the outstanding-permit snapshot
`maxPermits - currentPermits`; otherwise it performs `n` sequential
`Release` calls, and when the `j`-th of them times out it stops with that
error, keeping the `j` permits already released (no rollback). -/
theorem releaseN_semantics :
    (∀ (s : CountingSemaphore) (n : Int),
        s.maxPermits - s.currentPermits < n →
        s.ReleaseN n = (s, some SemErr.invalidRequestRelease)) ∧
    (∀ (s : CountingSemaphore) (n : Int),
        n ≤ s.maxPermits - s.currentPermits →
        s.semTokens + n.toNat ≤ s.semCap →
        s.ReleaseN n =
          ({ s with semTokens := s.semTokens + n.toNat,
                    currentPermits := s.currentPermits + (n.toNat : Int) }, none)) ∧
    (∀ (s : CountingSemaphore) (n : Int),
        n ≤ s.maxPermits - s.currentPermits →
        s.semTokens ≤ s.semCap → s.semCap < s.semTokens + n.toNat →
        s.ReleaseN n =
          ({ s with semTokens := s.semCap,
                    currentPermits :=
                      s.currentPermits + ((s.semCap - s.semTokens : Nat) : Int) },
           some SemErr.releaseTimeout)) :=
  ⟨ReleaseN_invalid, ReleaseN_ok, ReleaseN_fail⟩

theorem releaseN_semantics_witness :
    (NewCountingSemaphore 2 5).ReleaseN 1
      = (NewCountingSemaphore 2 5, some SemErr.invalidRequestRelease) :=
  releaseN_semantics.1 (NewCountingSemaphore 2 5) 1 (by decide)

/-- C10: on every reachable state, `AcquireN n` and `ReleaseN n` with
`n ≤ 0` both return a nil error and change nothing: both validation checks
pass vacuously and both loops run zero iterations. -/
theorem nonpositive_bulk_requests_succeed (s : CountingSemaphore) (n : Int)
    (hre : Reachable s) (hn : n ≤ 0) :
    s.AcquireN n = (s, none) ∧ s.ReleaseN n = (s, none) := by
  obtain ⟨C, h1, h2, h3, h4⟩ := reachable_goodState s hre
  have hz : n.toNat = 0 := by omega
  constructor
  · have c2 : ¬ s.AvailablePermits < n := by
      simp only [CountingSemaphore.AvailablePermits]
      omega
    rw [AcquireN_ok _ _ (by omega) c2 (by omega)]
    simp [hz]
  · rw [ReleaseN_ok _ _ (by omega) (by omega)]
    simp [hz]

theorem nonpositive_bulk_requests_succeed_witness :
    (NewCountingSemaphore 2 5).AcquireN (-1) = (NewCountingSemaphore 2 5, none) ∧
    (NewCountingSemaphore 2 5).ReleaseN (-1) = (NewCountingSemaphore 2 5, none) :=
  nonpositive_bulk_requests_succeed (NewCountingSemaphore 2 5) (-1)
    ⟨2, 5, [], rfl⟩ (by decide)
